/-
  Verification development for an interactive 3-D building visualizer.

  The program parses a building-geometry XML dialect into an in-memory model
  (utils.js), renders each planar surface as a triangle mesh in a scene graph
  (viewer.js), derives the space list for the UI (ui-controller.js), and
  drives load / reload of the whole pipeline (main.js).

  Modelling conventions:
  - JS numbers (IEEE-754 doubles) are modelled by `JsNum`: exact rationals
    extended with Infinity, -Infinity and NaN.  The special values follow
    IEEE-754 exactly; rounding of finite arithmetic is abstracted away
    (finite operations are exact).
  - The browser's DOMParser is an external collaborator; the parser functions
    are modelled from the point where the code walks the document tree
    (`Element` below), with querySelector / querySelectorAll / getAttribute /
    textContent given their DOM semantics.
  - Thrown JS errors are modelled by `Except String`.
-/
import Mathlib

/-! ### JS numbers -/

/-- A JavaScript number: an exact rational, or one of the IEEE-754 special
values Infinity, -Infinity, NaN. -/
inductive JsNum where
  | nan : JsNum
  | inf : JsNum
  | ninf : JsNum
  | fin : ℚ → JsNum
deriving DecidableEq, Repr

def JsNum.isNan : JsNum → Bool
  | nan => true
  | _ => false

def JsNum.neg : JsNum → JsNum
  | nan => nan
  | inf => ninf
  | ninf => inf
  | fin q => fin (-q)

/-- IEEE-754 addition on the special values; exact on finite values. -/
def JsNum.add : JsNum → JsNum → JsNum
  | nan, _ => nan
  | _, nan => nan
  | inf, ninf => nan
  | ninf, inf => nan
  | inf, _ => inf
  | _, inf => inf
  | ninf, _ => ninf
  | _, ninf => ninf
  | fin a, fin b => fin (a + b)

/-- IEEE-754 subtraction: `a - b = a + (-b)`. -/
def JsNum.sub (a b : JsNum) : JsNum := a.add b.neg

/-- IEEE-754 multiplication on the special values; exact on finite values. -/
def JsNum.mul : JsNum → JsNum → JsNum
  | nan, _ => nan
  | _, nan => nan
  | inf, inf => inf
  | inf, ninf => ninf
  | ninf, inf => ninf
  | ninf, ninf => inf
  | inf, fin q => if 0 < q then inf else if q < 0 then ninf else nan
  | fin q, inf => if 0 < q then inf else if q < 0 then ninf else nan
  | ninf, fin q => if 0 < q then ninf else if q < 0 then inf else nan
  | fin q, ninf => if 0 < q then ninf else if q < 0 then inf else nan
  | fin a, fin b => fin (a * b)

instance : Add JsNum := ⟨JsNum.add⟩
instance : Sub JsNum := ⟨JsNum.sub⟩
instance : Mul JsNum := ⟨JsNum.mul⟩
instance : Neg JsNum := ⟨JsNum.neg⟩

/-- `Math.min`: NaN if either argument is NaN, otherwise the smaller. -/
def JsNum.jmin : JsNum → JsNum → JsNum
  | nan, _ => nan
  | _, nan => nan
  | ninf, _ => ninf
  | _, ninf => ninf
  | inf, b => b
  | a, inf => a
  | fin a, fin b => if a ≤ b then fin a else fin b

/-- `Math.max`: NaN if either argument is NaN, otherwise the larger. -/
def JsNum.jmax : JsNum → JsNum → JsNum
  | nan, _ => nan
  | _, nan => nan
  | inf, _ => inf
  | _, inf => inf
  | ninf, b => b
  | a, ninf => a
  | fin a, fin b => if a ≤ b then fin b else fin a

/-- Division by two (exact on finite values). -/
def JsNum.half : JsNum → JsNum
  | nan => nan
  | inf => inf
  | ninf => ninf
  | fin q => fin (q / 2)

/-! ### Data model -/

/-- A point in world space (`{x, y, z}` in the source). -/
structure Vertex where
  x : JsNum
  y : JsNum
  z : JsNum
deriving DecidableEq, Repr

/-- The object returned by `parseSurface` (utils.js).  `getAttribute` returns
null for a missing attribute, hence the `Option` fields. -/
structure Surface where
  id : Option String
  surfaceType : Option String
  exposedToSun : Bool
  name : Option String
  adjacentSpaceId : Option String
  vertices : List Vertex
deriving DecidableEq, Repr

/-- The object returned by `parseBuildingXML` (utils.js). -/
structure Building where
  buildingName : Option String
  surfaces : List Surface
deriving DecidableEq, Repr

/-! ### The document tree

The browser's DOMParser (an external collaborator) turns the XML text into a
document tree; the parser code walks that tree.  By modelling convention the
`text` field of an element holds the concatenated character data of its
subtree — the only elements whose `textContent` the program reads
(`Coordinate`, `Name`) are leaves in this schema. -/

inductive Element where
  | mk (tag : String) (attrs : List (String × String)) (text : String)
       (children : List Element)

def Element.tag : Element → String
  | .mk t _ _ _ => t

def Element.attrs : Element → List (String × String)
  | .mk _ a _ _ => a

def Element.textContent : Element → String
  | .mk _ _ x _ => x

def Element.children : Element → List Element
  | .mk _ _ _ cs => cs

/-- `getAttribute`: the value of the first attribute with the given name,
`none` when absent (the DOM returns null). -/
def getAttribute (e : Element) (key : String) : Option String :=
  (e.attrs.find? (fun p => p.1 = key)).map (fun p => p.2)

mutual
/-- Every element of the subtree rooted at `e` (the root included) whose tag
matches, in document order. -/
def matchingElements (sel : String) : Element → List Element
  | .mk t a x cs =>
      (if t = sel then [Element.mk t a x cs] else []) ++ matchingElementsList sel cs
def matchingElementsList (sel : String) : List Element → List Element
  | [] => []
  | c :: cs => matchingElements sel c ++ matchingElementsList sel cs
end

/-- `querySelectorAll` with a tag selector: the matching descendants of `e`
in document order, `e` itself excluded.  (A parsed document is represented as
a node whose single child is the root element, so document-level queries can
also match the root.) -/
def querySelectorAll (e : Element) (sel : String) : List Element :=
  matchingElementsList sel e.children

/-- `querySelector`: the first matching descendant, if any. -/
def querySelector (e : Element) (sel : String) : Option Element :=
  (querySelectorAll e sel).head?

/-- A parsed document: a synthetic document node over the root element. -/
def document (root : Element) : Element :=
  .mk "#document" [] "" [root]

/-! ### utils.js — the XML parser -/

def isDigitChar (c : Char) : Bool := '0' ≤ c && c ≤ '9'

def digitVal (c : Char) : ℕ := c.toNat - '0'.toNat

/-- The longest leading run of decimal digits, and the rest. -/
def takeDigits : List Char → List Char × List Char
  | [] => ([], [])
  | c :: cs =>
      if isDigitChar c then
        let p := takeDigits cs
        (c :: p.1, p.2)
      else ([], c :: cs)

def digitsToNat (ds : List Char) : ℕ :=
  ds.foldl (fun acc c => 10 * acc + digitVal c) 0

/-- JS `parseFloat`: skip leading whitespace, read an optional sign, then
either the literal Infinity or a decimal mantissa with optional fraction and
exponent; NaN when no digits can be read.  A trailing non-numeric suffix is
ignored, which is why no error is ever raised. -/
def parseFloatChars (s : List Char) : JsNum :=
  let s0 := s.dropWhile (fun c => c == ' ' || c == '\t' || c == '\n' || c == '\r')
  let sgn : ℚ × List Char :=
    match s0 with
    | '-' :: rest => (-1, rest)
    | '+' :: rest => (1, rest)
    | _ => (1, s0)
  if sgn.2.take 8 = ['I', 'n', 'f', 'i', 'n', 'i', 't', 'y'] then
    if sgn.1 = 1 then JsNum.inf else JsNum.ninf
  else
    let ip := takeDigits sgn.2
    let fp : List Char × List Char :=
      match ip.2 with
      | '.' :: rest => takeDigits rest
      | _ => ([], ip.2)
    if ip.1 = [] ∧ fp.1 = [] then JsNum.nan
    else
      let mant : ℚ :=
        (digitsToNat ip.1 : ℚ) + (digitsToNat fp.1 : ℚ) / (10 ^ fp.1.length : ℚ)
      let ex : ℤ :=
        match fp.2 with
        | c :: rest =>
            if c == 'e' || c == 'E' then
              let es : ℤ × List Char :=
                match rest with
                | '-' :: r => (-1, r)
                | '+' :: r => (1, r)
                | _ => (1, rest)
              let eds := takeDigits es.2
              if eds.1 = [] then 0 else es.1 * (digitsToNat eds.1 : ℤ)
            else 0
        | [] => 0
      JsNum.fin (sgn.1 * mant * (10 : ℚ) ^ ex)

def parseFloat (s : String) : JsNum := parseFloatChars s.toList

/-- `extractCoordinates` (utils.js): reads the `Coordinate` elements under a
`CartesianPoint`; throws unless there are exactly 3, then `parseFloat`s each
text.  A non-numeric text yields NaN — it is not rejected. -/
def extractCoordinates (cartesianPoint : Element) : Except String Vertex :=
  match querySelectorAll cartesianPoint "Coordinate" with
  | [c0, c1, c2] =>
      .ok { x := parseFloat c0.textContent
            y := parseFloat c1.textContent
            z := parseFloat c2.textContent }
  | _ => .error "Invalid CartesianPoint: expected 3 coordinates"

/-- `extractPlanarGeometry` (utils.js): requires a `PolyLoop` with at least 3
`CartesianPoint`s; a throw from `extractCoordinates` propagates. -/
def extractPlanarGeometry (planarGeometry : Element) : Except String (List Vertex) :=
  match querySelector planarGeometry "PolyLoop" with
  | none => .error "PlanarGeometry missing PolyLoop element"
  | some polyLoop =>
      let cartesianPoints := querySelectorAll polyLoop "CartesianPoint"
      if cartesianPoints.length < 3 then
        .error "PolyLoop must contain at least 3 CartesianPoints"
      else
        cartesianPoints.mapM extractCoordinates

/-- How a null id prints inside a JS template string. -/
def optionToString : Option String → String
  | some s => s
  | none => "null"

/-- `parseSurface` (utils.js).  `exposedToSun` is true only for the exact
literal "true"; `name` and `adjacentSpaceId` are null when their elements are
absent. -/
def parseSurface (surfaceElem : Element) : Except String Surface :=
  let id := getAttribute surfaceElem "id"
  let surfaceType := getAttribute surfaceElem "surfaceType"
  let exposedToSun := getAttribute surfaceElem "exposedToSun" == some "true"
  let name := (querySelector surfaceElem "Name").map Element.textContent
  let adjacentSpaceId :=
    (querySelector surfaceElem "AdjacentSpaceId").bind
      (fun e => getAttribute e "spaceIdRef")
  match querySelector surfaceElem "PlanarGeometry" with
  | none => .error ("Surface " ++ optionToString id ++ " missing PlanarGeometry")
  | some planarGeometry =>
      (extractPlanarGeometry planarGeometry).map (fun vertices =>
        { id := id, surfaceType := surfaceType, exposedToSun := exposedToSun,
          name := name, adjacentSpaceId := adjacentSpaceId, vertices := vertices })

/-- `parseBuildingXML` (utils.js), from the point where the external DOMParser
has produced the document tree.  A surface whose `parseSurface` throws is
skipped with a logged warning; the others are kept in document order. -/
def parseBuildingXML (xmlDoc : Element) : Except String Building :=
  match querySelector xmlDoc "Building" with
  | none => .error "No Building element found in XML"
  | some building =>
      let buildingName := getAttribute building "name"
      let surfaceElements := querySelectorAll xmlDoc "Surface"
      let surfaces := surfaceElements.foldl (fun acc surfaceElement =>
        match parseSurface surfaceElement with
        | .ok s => acc ++ [s]
        | .error _ => acc) []
      .ok { buildingName := buildingName, surfaces := surfaces }

/-! ### ui-controller.js — space extraction -/

/-- One step of the `extractUniqueSpaces` loop: `if (surface.adjacentSpaceId)`
is a truthiness test, so both null and the empty string are skipped; the JS
`Set` keeps first-insertion order. -/
def addSpaceId (acc : List String) (s : Surface) : List String :=
  match s.adjacentSpaceId with
  | some sid => if sid ≠ "" then (if sid ∈ acc then acc else acc ++ [sid]) else acc
  | none => acc

/-- `extractUniqueSpaces` (ui-controller.js): collect the truthy
`adjacentSpaceId` values into a `Set`, then `Array.from(set).sort()` —
the default sort compares strings lexicographically. -/
def extractUniqueSpaces (surfaces : List Surface) : List String :=
  let spaceIds := surfaces.foldl addSpaceId []
  spaceIds.mergeSort (fun a b => a ≤ b)

/-! ### viewer.js — meshing, scene graph, camera -/

def surfaceColorTable : List (String × ℕ) :=
  [("ExteriorWall", 0xd4a574),
   ("InteriorWall", 0xe8e8e8),
   ("Roof", 0x8b4513),
   ("SlabOnGrade", 0x808080),
   ("Ceiling", 0xffffff),
   ("Floor", 0xa9a9a9),
   ("Shade", 0x90ee90),
   ("UndergroundWall", 0x654321)]

/-- The value a JS property read can produce here: a number, an inherited
member of `Object.prototype` (a function or object — identified by its
name), or undefined. -/
inductive JsValue where
  | num (n : ℕ)
  | protoMember (name : String)
  | undefined
deriving DecidableEq, Repr

/-- The property names every object literal inherits from
`Object.prototype`; reading any of them yields a function (or, for
`__proto__`, an object) — a truthy value, never undefined. -/
def objectProtoKeys : List String :=
  ["constructor", "hasOwnProperty", "isPrototypeOf", "propertyIsEnumerable",
   "toLocaleString", "toString", "valueOf", "__proto__",
   "__defineGetter__", "__defineSetter__", "__lookupGetter__", "__lookupSetter__"]

/-- `colorMap[surfaceType]`: a JS property read on the object literal — an
own property first, then the prototype chain (the literal inherits
`Object.prototype`), and only past both is the result undefined. -/
def colorMapLookup (surfaceType : String) : JsValue :=
  match (surfaceColorTable.find? (fun p => p.1 = surfaceType)).map (fun p => p.2) with
  | some c => .num c
  | none =>
      if surfaceType ∈ objectProtoKeys then .protoMember surfaceType else .undefined

/-- JS truthiness of such a value: 0 and undefined are falsy; every other
number, and every function or object, is truthy. -/
def jsTruthy : JsValue → Bool
  | .num n => n ≠ 0
  | .protoMember _ => true
  | .undefined => false

/-- `getSurfaceColor` (viewer.js): `colorMap[surfaceType] || 0xcccccc` — the
`||` falls through to the default gray only when the property read is falsy.
A miss past the prototype chain (undefined) does; but a read that hits an
inherited `Object.prototype` member is truthy and is returned as-is, NOT
replaced by the default. -/
def getSurfaceColor (surfaceType : String) : JsValue :=
  let v := colorMapLookup surfaceType
  if jsTruthy v then v else .num 0xcccccc

/-- `triangulateSurface` (viewer.js): fewer than 3 vertices throws; exactly 4
uses the hard-coded quad split; otherwise the loop
`for (i = 1; i < n - 1; i++) indices.push(0, i, i + 1)` builds a fan. -/
def triangulateSurface (vertices : List Vertex) : Except String (List ℕ) :=
  if vertices.length < 3 then
    .error "Surface must have at least 3 vertices"
  else if vertices.length = 4 then
    .ok [0, 1, 2, 0, 2, 3]
  else
    .ok ((List.range' 1 (vertices.length - 2)).foldl
      (fun indices i => indices ++ [0, i, i + 1]) [])

/-- The data of a `BufferGeometry` the code builds: the flat position array
and the triangle index buffer.  (The vertex normals the renderer derives from
these are not modelled.) -/
structure Geometry where
  positions : List JsNum
  index : List ℕ
deriving DecidableEq, Repr

/-- `createGeometryFromVertices` (viewer.js): flatten the vertices into
`[x1, y1, z1, x2, ...]`, then triangulate — a throw from `triangulateSurface`
propagates. -/
def createGeometryFromVertices (vertices : List Vertex) : Except String Geometry :=
  let positions := vertices.foldl (fun ps v => ps ++ [v.x, v.y, v.z]) []
  (triangulateSurface vertices).map (fun indices =>
    { positions := positions, index := indices })

/-- The `userData` record attached to each surface mesh. -/
structure UserData where
  surfaceId : Option String
  surfaceType : Option String
  name : Option String
  adjacentSpaceId : Option String
deriving DecidableEq, Repr

/-- A child of a surface group: the Phong mesh with its metadata, or the
black wireframe line segments. -/
inductive SceneChild where
  | mesh (userData : UserData) (geometry : Geometry) (color : JsValue)
  | wireframe (geometry : Geometry)
deriving DecidableEq, Repr

/-- A top-level scene-graph object: one of the three lights `createLights`
adds, or a group built by `createSurfaceMesh`. -/
inductive SceneObject where
  | ambientLight
  | directionalLight (x y z : ℤ)
  | group (children : List SceneChild)
deriving DecidableEq, Repr

/-- `createSurfaceMesh` (viewer.js): a group holding the mesh (first child)
and its wireframe.  A null `surfaceType` is coerced to the property key
"null" by the JS property read; that key misses the table and the prototype
chain, so it gets the default gray. -/
def createSurfaceMesh (surface : Surface) : Except String SceneObject :=
  (createGeometryFromVertices surface.vertices).map (fun geometry =>
    let color := getSurfaceColor (optionToString surface.surfaceType)
    SceneObject.group
      [SceneChild.mesh
         { surfaceId := surface.id, surfaceType := surface.surfaceType,
           name := surface.name, adjacentSpaceId := surface.adjacentSpaceId }
         geometry color,
       SceneChild.wireframe geometry])

/-- `renderSurfaces` (viewer.js): add a group per surface; a surface whose
mesh creation throws is skipped with a logged warning. -/
def renderSurfaces (scene : List SceneObject) (surfaces : List Surface) :
    List SceneObject :=
  surfaces.foldl (fun sc surface =>
    match createSurfaceMesh surface with
    | .ok m => sc ++ [m]
    | .error _ => sc) scene

/-- JS truthiness of a string-or-null: null and the empty string are falsy. -/
def truthyStr : Option String → Bool
  | none => false
  | some s => !(s == "")

/-- The collection test of `clearSurfaces`: a group whose first child is a
mesh carrying a truthy `userData.surfaceId`.  Lights and wireframe-first or
empty groups never match. -/
def isSurfaceGroup : SceneObject → Bool
  | .group (SceneChild.mesh ud _ _ :: _) => truthyStr ud.surfaceId
  | _ => false

/-- `clearSurfaces` (viewer.js): traverse the scene collecting the surface
groups, then remove each collected object.  (Scene children of a group are
meshes and line segments, never nested groups, so the traversal only ever
collects top-level groups.) -/
def clearSurfaces (scene : List SceneObject) : List SceneObject :=
  let objectsToRemove := scene.filter isSurfaceGroup
  scene.filter (fun o => o ∉ objectsToRemove)

/-- The six running bounds of `calculateBoundingBox`. -/
structure BoundsAcc where
  minX : JsNum
  minY : JsNum
  minZ : JsNum
  maxX : JsNum
  maxY : JsNum
  maxZ : JsNum
deriving DecidableEq, Repr

def initialBounds : BoundsAcc :=
  { minX := .inf, minY := .inf, minZ := .inf,
    maxX := .ninf, maxY := .ninf, maxZ := .ninf }

/-- The body of the nested forEach in `calculateBoundingBox`. -/
def updateBounds (acc : BoundsAcc) (v : Vertex) : BoundsAcc :=
  { minX := acc.minX.jmin v.x, minY := acc.minY.jmin v.y, minZ := acc.minZ.jmin v.z,
    maxX := acc.maxX.jmax v.x, maxY := acc.maxY.jmax v.y, maxZ := acc.maxZ.jmax v.z }

structure BBox where
  center : Vertex
  size : Vertex
deriving DecidableEq, Repr

/-- `calculateBoundingBox` (viewer.js): fold every vertex of every surface
into the six bounds (started at plus or minus Infinity), then centre and
size per axis.  On an empty surface list nothing is folded, so the centre
is `(Inf + -Inf) / 2 = NaN` and each size is `-Inf - Inf = -Inf`. -/
def calculateBoundingBox (surfaces : List Surface) : BBox :=
  let b := surfaces.foldl (fun acc s => s.vertices.foldl updateBounds acc) initialBounds
  { center := { x := (b.minX + b.maxX).half,
                y := (b.minY + b.maxY).half,
                z := (b.minZ + b.maxZ).half },
    size := { x := b.maxX - b.minX, y := b.maxY - b.minY, z := b.maxZ - b.minZ } }

/-- The camera state `positionCameraForBuilding` writes: `camera.position`
and the lookAt / controls target. -/
structure CameraPose where
  position : Vertex
  target : Vertex
deriving DecidableEq, Repr

/-- `positionCameraForBuilding` (viewer.js): distance is the largest box
dimension times 2.5; the camera sits on the +Z side of the centre, looking at
the centre. -/
def positionCameraForBuilding (surfaces : List Surface) : CameraPose :=
  let bb := calculateBoundingBox surfaces
  let maxDim := (bb.size.x.jmax bb.size.y).jmax bb.size.z
  let distance := maxDim * JsNum.fin (5 / 2)
  { position := { x := bb.center.x, y := bb.center.y, z := bb.center.z + distance },
    target := bb.center }

/-! ### main.js — load and reload -/

/-- `loadBuilding` (main.js): the fetch plus DOMParser step is an external
collaborator, passed in as its outcome (the document tree or a thrown error);
on success the parsed building's surfaces are rendered into the scene.  The
returned pair is the scene afterwards and the load's outcome. -/
def loadBuilding (scene : List SceneObject) (fetched : Except String Element) :
    List SceneObject × Except String Building :=
  match fetched.bind parseBuildingXML with
  | .error e => (scene, .error e)
  | .ok b => (renderSurfaces scene b.surfaces, .ok b)

/-- `reloadBuilding` (main.js): clears the existing surfaces, THEN awaits the
new load — the teardown is not conditional on the load succeeding. -/
def reloadBuilding (scene : List SceneObject) (fetched : Except String Element) :
    List SceneObject × Except String Building :=
  loadBuilding (clearSurfaces scene) fetched

/-! ### Spec-side definitions (for refinement claims) -/

/-- The fan-triangulation formula as the spec words it: the triangle list
is `(0, i, i + 1)` for `i = 1 .. n - 2`. -/
def fanTriangles (n : ℕ) : List (ℕ × ℕ × ℕ) :=
  (List.range' 1 (n - 2)).map (fun i => (0, i, i + 1))

/-- Every vertex of every input surface, in order. -/
def allVertices (surfaces : List Surface) : List Vertex :=
  surfaces.flatMap (fun s => s.vertices)

def foldMin (xs : List JsNum) : JsNum := xs.foldl JsNum.jmin JsNum.inf

def foldMax (xs : List JsNum) : JsNum := xs.foldl JsNum.jmax JsNum.ninf

structure Framing where
  center : Vertex
  distance : JsNum
deriving DecidableEq, Repr

/-- `computeFraming` as §4.4 of the spec words it: the axis-aligned bounding
box over every vertex of every input surface, centre = box midpoint per axis,
distance = 2.5 × the largest box extent. -/
def computeFraming (surfaces : List Surface) : Framing :=
  let vs := allVertices surfaces
  let minX := foldMin (vs.map Vertex.x)
  let maxX := foldMax (vs.map Vertex.x)
  let minY := foldMin (vs.map Vertex.y)
  let maxY := foldMax (vs.map Vertex.y)
  let minZ := foldMin (vs.map Vertex.z)
  let maxZ := foldMax (vs.map Vertex.z)
  { center := { x := (minX + maxX).half, y := (minY + maxY).half, z := (minZ + maxZ).half },
    distance := JsNum.fin (5 / 2) * (((maxX - minX).jmax (maxY - minY)).jmax (maxZ - minZ)) }

/-- The space list as the claim words it: the distinct NON-NULL
`adjacentSpaceId` values (the empty string is non-null and so included),
sorted ascending. -/
def listSpacesClaim (surfaces : List Surface) : List String :=
  ((surfaces.filterMap Surface.adjacentSpaceId).dedup).mergeSort (fun a b => a ≤ b)

/-! ### Concrete inputs used by witnesses and counterexamples -/

/-- The unit quad of §8 of the spec. -/
def unitQuadVertices : List Vertex :=
  [{ x := .fin 0, y := .fin 0, z := .fin 0 },
   { x := .fin 1, y := .fin 0, z := .fin 0 },
   { x := .fin 1, y := .fin 1, z := .fin 0 },
   { x := .fin 0, y := .fin 1, z := .fin 0 }]

/-- The 10 × 10 quad of the framing example in §8 of the spec. -/
def tenQuadSurface : Surface :=
  { id := some "s-quad", surfaceType := some "Roof", exposedToSun := true,
    name := none, adjacentSpaceId := none,
    vertices :=
      [{ x := .fin 0, y := .fin 0, z := .fin 0 },
       { x := .fin 10, y := .fin 0, z := .fin 0 },
       { x := .fin 10, y := .fin 10, z := .fin 0 },
       { x := .fin 0, y := .fin 10, z := .fin 0 }] }

/-- A hand-built surface with only 2 vertices (the mesher must reject it). -/
def twoVertexSurface : Surface :=
  { id := some "s-degenerate", surfaceType := some "Roof", exposedToSun := false,
    name := none, adjacentSpaceId := none,
    vertices := [{ x := .fin 0, y := .fin 0, z := .fin 0 },
                 { x := .fin 1, y := .fin 0, z := .fin 0 }] }

/-- A parsed surface whose Surface element had no id attribute. -/
def noIdSurface : Surface :=
  { id := none, surfaceType := some "Roof", exposedToSun := false,
    name := none, adjacentSpaceId := none,
    vertices := [{ x := .fin 0, y := .fin 0, z := .fin 0 },
                 { x := .fin 1, y := .fin 0, z := .fin 0 },
                 { x := .fin 0, y := .fin 1, z := .fin 0 }] }

/-- A surface whose `AdjacentSpaceId` element carried an empty spaceIdRef. -/
def emptySpaceIdSurface : Surface :=
  { id := some "s-e", surfaceType := some "Floor", exposedToSun := false,
    name := none, adjacentSpaceId := some "", vertices := [] }

def spaceSurfaceA : Surface :=
  { id := some "s-a", surfaceType := some "Floor", exposedToSun := false,
    name := none, adjacentSpaceId := some "space-a", vertices := [] }

def spaceSurfaceB : Surface :=
  { id := some "s-b", surfaceType := some "Floor", exposedToSun := false,
    name := none, adjacentSpaceId := some "space-b", vertices := [] }

/-- A document whose single surface has a point with the non-numeric
coordinate text "abc". -/
def nanCoordinateDoc : Element :=
  document (.mk "Building" [("name", "B")] ""
    [.mk "Surface" [("id", "s1")] ""
      [.mk "PlanarGeometry" [] ""
        [.mk "PolyLoop" [] ""
          [.mk "CartesianPoint" [] ""
            [.mk "Coordinate" [] "0" [], .mk "Coordinate" [] "0" [],
             .mk "Coordinate" [] "abc" []],
           .mk "CartesianPoint" [] ""
            [.mk "Coordinate" [] "1" [], .mk "Coordinate" [] "0" [],
             .mk "Coordinate" [] "0" []],
           .mk "CartesianPoint" [] ""
            [.mk "Coordinate" [] "0" [], .mk "Coordinate" [] "1" [],
             .mk "Coordinate" [] "0" []]]]]])

/-- A CartesianPoint with only two Coordinate children. -/
def twoCoordPoint : Element :=
  .mk "CartesianPoint" [] ""
    [.mk "Coordinate" [] "1" [], .mk "Coordinate" [] "2" []]

/-- A CartesianPoint with three numeric Coordinate children. -/
def threeCoordPoint : Element :=
  .mk "CartesianPoint" [] ""
    [.mk "Coordinate" [] "1" [], .mk "Coordinate" [] "2" [],
     .mk "Coordinate" [] "3" []]

/-- A triangle geometry, as `createGeometryFromVertices` builds it for
`noIdSurface`. -/
def triangleGeometry : Geometry :=
  { positions := [.fin 0, .fin 0, .fin 0, .fin 1, .fin 0, .fin 0, .fin 0, .fin 1, .fin 0],
    index := [0, 1, 2] }

/-- The group `createSurfaceMesh` builds for `noIdSurface`. -/
def noIdGroup : SceneObject :=
  .group [SceneChild.mesh
            { surfaceId := none, surfaceType := some "Roof",
              name := none, adjacentSpaceId := none }
            triangleGeometry (.num 0x8b4513),
          SceneChild.wireframe triangleGeometry]

/-- A scene as it stands after a successful first load: the three lights and
one rendered surface group (id "old-1"). -/
def oldGeneration : SceneObject :=
  .group [SceneChild.mesh
            { surfaceId := some "old-1", surfaceType := some "Roof",
              name := none, adjacentSpaceId := none }
            triangleGeometry (.num 0x8b4513),
          SceneChild.wireframe triangleGeometry]

def loadedScene : List SceneObject :=
  [SceneObject.ambientLight, SceneObject.directionalLight 50 100 50,
   SceneObject.directionalLight (-50) 50 (-50), oldGeneration]

/-- The geometry `createGeometryFromVertices` builds for the unit quad. -/
def unitQuadGeometry : Geometry :=
  { positions := [.fin 0, .fin 0, .fin 0, .fin 1, .fin 0, .fin 0,
                  .fin 1, .fin 1, .fin 0, .fin 0, .fin 1, .fin 0],
    index := [0, 1, 2, 0, 2, 3] }

/-! ### Helper lemmas -/

theorem jsAdd_def (a b : JsNum) : a + b = JsNum.add a b := rfl

theorem jsSub_def (a b : JsNum) : a - b = JsNum.sub a b := rfl

theorem jsMul_def (a b : JsNum) : a * b = JsNum.mul a b := rfl

theorem jsMul_comm (a b : JsNum) : a * b = b * a := by
  cases a <;> cases b <;> simp [jsMul_def, JsNum.mul, mul_comm]

theorem foldl_push_triangle (l : List ℕ) (acc : List ℕ) :
    l.foldl (fun indices i => indices ++ [0, i, i + 1]) acc
      = acc ++ l.flatMap (fun i => [0, i, i + 1]) := by
  induction l generalizing acc with
  | nil => simp
  | cons a t ih => simp [List.foldl_cons, ih]

/-- For every admissible vertex count the triangulation — the hard-coded quad
branch included — is the flattened fan over `1 .. n - 2`. -/
theorem triangulateSurface_ok (vertices : List Vertex) (h : 3 ≤ vertices.length) :
    triangulateSurface vertices
      = .ok ((List.range' 1 (vertices.length - 2)).flatMap (fun i => [0, i, i + 1])) := by
  unfold triangulateSurface
  rw [if_neg (by omega)]
  by_cases h4 : vertices.length = 4
  · rw [if_pos h4, h4]
    rfl
  · rw [if_neg h4, foldl_push_triangle]
    simp

theorem positions_foldl_length (l : List Vertex) (acc : List JsNum) :
    (l.foldl (fun ps v => ps ++ [v.x, v.y, v.z]) acc).length
      = acc.length + 3 * l.length := by
  induction l generalizing acc with
  | nil => simp
  | cons v t ih => simp [List.foldl_cons, ih]; omega

/-! ### Claim theorems -/

/-- Claim C4: for every vertex list of length n ≥ 3, triangulation returns
exactly the flattened fan triangle list (0, i, i+1) for i = 1 .. n-2: n-2
triangles, each containing vertex 0, in that order — so the special n = 4
branch coincides with the general fan formula. -/
theorem triangulateSurface_matches_fan (vertices : List Vertex)
    (h : 3 ≤ vertices.length) :
    triangulateSurface vertices
        = .ok ((fanTriangles vertices.length).flatMap (fun t => [t.1, t.2.1, t.2.2]))
      ∧ (fanTriangles vertices.length).length = vertices.length - 2
      ∧ ∀ t ∈ fanTriangles vertices.length, t.1 = 0 := by
  refine ⟨?_, ?_, ?_⟩
  · rw [triangulateSurface_ok vertices h]
    unfold fanTriangles
    rw [List.flatMap_map]
  · simp [fanTriangles]
  · intro t ht
    simp only [fanTriangles, List.mem_map] at ht
    obtain ⟨i, _, rfl⟩ := ht
    rfl

/-- Witness for C4: the unit quad yields exactly the triangles (0,1,2) and
(0,2,3), matching the fan formula at n = 4. -/
theorem triangulateSurface_matches_fan_witness :
    3 ≤ unitQuadVertices.length
      ∧ triangulateSurface unitQuadVertices = .ok [0, 1, 2, 0, 2, 3]
      ∧ (fanTriangles unitQuadVertices.length).flatMap (fun t => [t.1, t.2.1, t.2.2])
          = [0, 1, 2, 0, 2, 3] := by
  refine ⟨by decide, ?_, by rfl⟩
  rw [(triangulateSurface_matches_fan unitQuadVertices (by decide)).1]
  rfl

/-- Claim C5: a surface with fewer than 3 vertices always fails meshing with
the InsufficientVertices error; neither a geometry nor a mesh descriptor is
produced. -/
theorem createSurfaceMesh_rejects_degenerate (surface : Surface)
    (h : surface.vertices.length < 3) :
    createGeometryFromVertices surface.vertices
        = .error "Surface must have at least 3 vertices"
      ∧ createSurfaceMesh surface = .error "Surface must have at least 3 vertices" := by
  constructor
  · simp [createGeometryFromVertices, triangulateSurface, h, Except.map]
  · simp [createSurfaceMesh, createGeometryFromVertices, triangulateSurface, h, Except.map]

/-- Witness for C5: a hand-built 2-vertex surface is rejected. -/
theorem createSurfaceMesh_rejects_degenerate_witness :
    twoVertexSurface.vertices.length < 3
      ∧ createSurfaceMesh twoVertexSurface
          = .error "Surface must have at least 3 vertices" :=
  ⟨by decide, (createSurfaceMesh_rejects_degenerate twoVertexSurface (by decide)).2⟩

/-- Claim C9: for n ≥ 3 vertices, every index the triangulation emits lies in
[0, n-1], and the flat position array has length exactly 3·n — the index
buffer never references outside the positions. -/
theorem geometry_indices_in_bounds (vertices : List Vertex) (h : 3 ≤ vertices.length)
    (g : Geometry) (hg : createGeometryFromVertices vertices = .ok g) :
    (∀ i ∈ g.index, i < vertices.length)
      ∧ g.positions.length = 3 * vertices.length := by
  unfold createGeometryFromVertices at hg
  rw [triangulateSurface_ok vertices h] at hg
  simp only [Except.map, Except.ok.injEq] at hg
  subst hg
  constructor
  · intro i hi
    simp only [List.mem_flatMap] at hi
    obtain ⟨j, hj, hij⟩ := hi
    rw [List.mem_range'] at hj
    obtain ⟨k, hk, rfl⟩ := hj
    simp only [List.mem_cons, List.mem_singleton, List.not_mem_nil, or_false] at hij
    rcases hij with rfl | rfl | rfl <;> omega
  · simpa using positions_foldl_length vertices []

/-- Witness for C9: the unit quad's geometry has 12 position entries and all
indices below 4. -/
theorem geometry_indices_in_bounds_witness :
    3 ≤ unitQuadVertices.length
      ∧ createGeometryFromVertices unitQuadVertices = .ok unitQuadGeometry
      ∧ (∀ i ∈ unitQuadGeometry.index, i < unitQuadVertices.length)
      ∧ unitQuadGeometry.positions.length = 3 * unitQuadVertices.length := by
  refine ⟨by decide, by rfl, ?_, ?_⟩
  · exact (geometry_indices_in_bounds unitQuadVertices (by decide)
      unitQuadGeometry (by rfl)).1
  · exact (geometry_indices_in_bounds unitQuadVertices (by decide)
      unitQuadGeometry (by rfl)).2

/-- Claim C7 counterexample: the property read hits the prototype chain —
for surfaceType "toString", which is not in the fixed table, the program
reads the inherited (truthy) Object.prototype.toString, so the || never
falls through: the result is that member, not the default gray 0xcccccc. -/
theorem getSurfaceColor_protoMember_counterexample :
    "toString" ∉ surfaceColorTable.map Prod.fst
      ∧ getSurfaceColor "toString" = .protoMember "toString"
      ∧ getSurfaceColor "toString" ≠ .num 0xcccccc := by
  refine ⟨by decide, by rfl, by decide⟩

/-- Claim C7 (amended): the colour lookup never throws, but it maps to the
default gray only off the prototype chain: a surfaceType outside the fixed
table that is not an inherited Object.prototype key yields the default gray
0xcccccc, while a surfaceType naming an inherited Object.prototype member
yields that truthy member instead of a colour. -/
theorem getSurfaceColor_default_or_proto (surfaceType : String)
    (h : surfaceType ∉ surfaceColorTable.map Prod.fst) :
    (surfaceType ∉ objectProtoKeys →
        getSurfaceColor surfaceType = .num 0xcccccc)
      ∧ (surfaceType ∈ objectProtoKeys →
        getSurfaceColor surfaceType = .protoMember surfaceType) := by
  have hnone : surfaceColorTable.find? (fun p => p.1 = surfaceType) = none := by
    rw [List.find?_eq_none]
    intro p hp
    simp only [decide_eq_true_eq]
    intro he
    exact h (he ▸ List.mem_map_of_mem Prod.fst hp)
  constructor
  · intro hnp
    simp [getSurfaceColor, colorMapLookup, hnone, hnp, jsTruthy]
  · intro hp
    simp [getSurfaceColor, colorMapLookup, hnone, hp, jsTruthy]

/-- Witness for C7: "Skylight" (off both the table and the prototype chain)
gets the default gray; "toString" yields the inherited member. -/
theorem getSurfaceColor_default_or_proto_witness :
    "Skylight" ∉ surfaceColorTable.map Prod.fst
      ∧ getSurfaceColor "Skylight" = .num 0xcccccc
      ∧ getSurfaceColor "toString" = .protoMember "toString" :=
  ⟨by decide,
   (getSurfaceColor_default_or_proto "Skylight" (by decide)).1 (by decide),
   (getSurfaceColor_default_or_proto "toString" (by decide)).2 (by decide)⟩

/-- Claim C2 counterexample: on the empty surface list the framer does NOT
fail — it returns a definite camera pose (all coordinates NaN), so the
claimed EmptyScene failure does not exist in the code. -/
theorem framer_empty_returns_pose :
    positionCameraForBuilding ([] : List Surface)
      = { position := { x := .nan, y := .nan, z := .nan },
          target := { x := .nan, y := .nan, z := .nan } } := by
  norm_num [positionCameraForBuilding, calculateBoundingBox, initialBounds,
    JsNum.half, JsNum.jmax, jsAdd_def, jsSub_def, jsMul_def, JsNum.add, JsNum.sub,
    JsNum.neg, JsNum.mul]

/-- Claim C2 (amended): for the empty sequence of surfaces the framing does
not fail; the bounding box degenerates to a NaN centre with -Infinity sizes,
and the spec-level framing value is a NaN centre with -Infinity distance. -/
theorem framer_empty_degenerate :
    calculateBoundingBox ([] : List Surface)
        = { center := { x := .nan, y := .nan, z := .nan },
            size := { x := .ninf, y := .ninf, z := .ninf } }
      ∧ computeFraming ([] : List Surface)
        = { center := { x := .nan, y := .nan, z := .nan }, distance := .ninf } := by
  constructor
  · rfl
  · norm_num [computeFraming, allVertices, foldMin, foldMax,
      JsNum.half, JsNum.jmax, jsAdd_def, jsSub_def, jsMul_def, JsNum.add, JsNum.sub,
      JsNum.neg, JsNum.mul]

theorem boundsFold_eq (l : List Vertex) (acc : BoundsAcc) :
    l.foldl updateBounds acc
      = { minX := l.foldl (fun a v => a.jmin v.x) acc.minX,
          minY := l.foldl (fun a v => a.jmin v.y) acc.minY,
          minZ := l.foldl (fun a v => a.jmin v.z) acc.minZ,
          maxX := l.foldl (fun a v => a.jmax v.x) acc.maxX,
          maxY := l.foldl (fun a v => a.jmax v.y) acc.maxY,
          maxZ := l.foldl (fun a v => a.jmax v.z) acc.maxZ } := by
  induction l generalizing acc with
  | nil => rfl
  | cons v t ih => simp [List.foldl_cons, ih, updateBounds]

theorem nestedFold_eq_allVertices (surfaces : List Surface) (acc : BoundsAcc) :
    surfaces.foldl (fun a s => s.vertices.foldl updateBounds a) acc
      = (allVertices surfaces).foldl updateBounds acc := by
  induction surfaces generalizing acc with
  | nil => rfl
  | cons s t ih => simp [allVertices, List.flatMap_cons, List.foldl_append, ih]

/-- Claim C6: for every non-empty surface list the camera pose is exactly the
spec-level framing — position at centre + (0, 0, distance), looking at the
centre, where the centre is the bounding-box midpoint per axis and the
distance is 2.5 × the largest box extent. -/
theorem positionCamera_matches_framing (surfaces : List Surface)
    (h : surfaces ≠ []) :
    positionCameraForBuilding surfaces
      = { position := { x := (computeFraming surfaces).center.x,
                        y := (computeFraming surfaces).center.y,
                        z := (computeFraming surfaces).center.z
                               + (computeFraming surfaces).distance },
          target := (computeFraming surfaces).center } := by
  unfold positionCameraForBuilding calculateBoundingBox computeFraming
  rw [nestedFold_eq_allVertices, boundsFold_eq]
  simp only [foldMin, foldMax, List.foldl_map, initialBounds]
  rw [jsMul_comm]

/-- Witness for C6: the 10 × 10 quad frames to centre (5, 5, 0) and distance
25, with the camera at (5, 5, 25) looking at (5, 5, 0). -/
theorem positionCamera_matches_framing_witness :
    ([tenQuadSurface] ≠ ([] : List Surface))
      ∧ computeFraming [tenQuadSurface]
          = { center := { x := .fin 5, y := .fin 5, z := .fin 0 }, distance := .fin 25 }
      ∧ positionCameraForBuilding [tenQuadSurface]
          = { position := { x := .fin 5, y := .fin 5, z := .fin 25 },
              target := { x := .fin 5, y := .fin 5, z := .fin 0 } } := by
  have hf : computeFraming [tenQuadSurface]
      = { center := { x := .fin 5, y := .fin 5, z := .fin 0 }, distance := .fin 25 } := by
    norm_num [computeFraming, allVertices, foldMin, foldMax, tenQuadSurface,
      JsNum.jmin, JsNum.jmax, JsNum.half, jsAdd_def, jsSub_def, jsMul_def,
      JsNum.add, JsNum.sub, JsNum.neg, JsNum.mul]
  refine ⟨by simp, hf, ?_⟩
  rw [positionCamera_matches_framing [tenQuadSurface] (by simp), hf]
  norm_num [jsAdd_def, JsNum.add]

/-- Claim C3 (amended): per-point validation checks only the coordinate
COUNT — a point without exactly 3 Coordinate elements makes the surface's
parse throw (InvalidCoordinate class), while a point whose 3 coordinate
texts include a non-number parses to NaN and is accepted. -/
theorem extractCoordinates_count_only (pt : Element) :
    ((querySelectorAll pt "Coordinate").length ≠ 3 →
        extractCoordinates pt = .error "Invalid CartesianPoint: expected 3 coordinates")
      ∧ (∀ c0 c1 c2, querySelectorAll pt "Coordinate" = [c0, c1, c2] →
          extractCoordinates pt
            = .ok { x := parseFloat c0.textContent,
                    y := parseFloat c1.textContent,
                    z := parseFloat c2.textContent }) := by
  constructor
  · intro hlen
    unfold extractCoordinates
    rcases hq : querySelectorAll pt "Coordinate" with _ | ⟨a, _ | ⟨b, _ | ⟨c, _ | ⟨d, t⟩⟩⟩⟩
    · rfl
    · rfl
    · rfl
    · rw [hq] at hlen
      simp at hlen
    · rfl
  · intro c0 c1 c2 hq
    unfold extractCoordinates
    rw [hq]

/-- Witness for C3: a 2-coordinate point is rejected; a 3-coordinate point is
accepted with the parseFloat of each text. -/
theorem extractCoordinates_count_only_witness :
    (querySelectorAll twoCoordPoint "Coordinate").length ≠ 3
      ∧ extractCoordinates twoCoordPoint
          = .error "Invalid CartesianPoint: expected 3 coordinates"
      ∧ extractCoordinates threeCoordPoint
          = .ok { x := parseFloat "1", y := parseFloat "2", z := parseFloat "3" } := by
  refine ⟨by decide, (extractCoordinates_count_only twoCoordPoint).1 (by decide), ?_⟩
  exact (extractCoordinates_count_only threeCoordPoint).2
    (.mk "Coordinate" [] "1" []) (.mk "Coordinate" [] "2" [])
    (.mk "Coordinate" [] "3" []) (by rfl)

/-- Claim C3 counterexample: a document whose surface has a point with
coordinate text "abc" parses to a Building that KEEPS the surface, with NaN
as that coordinate — the surface is not skipped. -/
theorem parse_keeps_nan_surface :
    (parseBuildingXML nanCoordinateDoc).map
        (fun b => (b.buildingName,
          b.surfaces.map (fun s =>
            (s.id, s.vertices.map (fun v => [v.x.isNan, v.y.isNan, v.z.isNan])))))
      = .ok (some "B",
          [(some "s1",
            [[false, false, true], [false, false, false], [false, false, false]])]) := by
  rfl

theorem mem_addSpaceId (acc : List String) (s : Surface) (x : String) :
    x ∈ addSpaceId acc s ↔ x ∈ acc ∨ (x ≠ "" ∧ s.adjacentSpaceId = some x) := by
  cases h : s.adjacentSpaceId with
  | none => simp [addSpaceId, h]
  | some sid =>
      by_cases hs : sid = ""
      · subst hs
        simp [addSpaceId, h]
        intro h1 h2
        exact absurd h2.symm h1
      · by_cases hm : sid ∈ acc
        · simp only [addSpaceId, h, hs, hm, if_true, if_pos, ne_eq,
            not_false_eq_true, Option.some.injEq]
          constructor
          · exact Or.inl
          · rintro (hx | ⟨-, rfl⟩)
            · exact hx
            · exact hm
        · simp only [addSpaceId, h, hs, hm, ne_eq, not_false_eq_true, if_true,
            if_false, List.mem_append, List.mem_singleton, Option.some.injEq]
          constructor
          · rintro (hx | rfl)
            · exact Or.inl hx
            · exact Or.inr ⟨hs, rfl⟩
          · rintro (hx | ⟨-, rfl⟩)
            · exact Or.inl hx
            · exact Or.inr rfl

theorem mem_spaceFold (l : List Surface) (acc : List String) (x : String) :
    x ∈ l.foldl addSpaceId acc
      ↔ x ∈ acc ∨ (x ≠ "" ∧ ∃ s ∈ l, s.adjacentSpaceId = some x) := by
  induction l generalizing acc with
  | nil => simp
  | cons s t ih =>
      rw [List.foldl_cons, ih]
      simp only [mem_addSpaceId, List.mem_cons]
      constructor
      · rintro ((hx | ⟨hne, hs⟩) | ⟨hne, s2, hs2, hadj⟩)
        · exact Or.inl hx
        · exact Or.inr ⟨hne, s, Or.inl rfl, hs⟩
        · exact Or.inr ⟨hne, s2, Or.inr hs2, hadj⟩
      · rintro (hx | ⟨hne, s2, (rfl | hs2), hadj⟩)
        · exact Or.inl (Or.inl hx)
        · exact Or.inl (Or.inr ⟨hne, hadj⟩)
        · exact Or.inr ⟨hne, s2, hs2, hadj⟩

theorem nodup_addSpaceId (acc : List String) (s : Surface) (h : acc.Nodup) :
    (addSpaceId acc s).Nodup := by
  unfold addSpaceId
  cases s.adjacentSpaceId with
  | none => exact h
  | some sid =>
      by_cases hs : sid = ""
      · simp [hs, h]
      · by_cases hm : sid ∈ acc
        · simp [hs, hm, h]
        · simp [hs, hm, h, List.nodup_append]

theorem nodup_spaceFold (l : List Surface) (acc : List String) (h : acc.Nodup) :
    (l.foldl addSpaceId acc).Nodup := by
  induction l generalizing acc with
  | nil => exact h
  | cons s t ih => exact ih _ (nodup_addSpaceId acc s h)

theorem sorted_mergeSort_le (l : List String) :
    (l.mergeSort (fun a b => a ≤ b)).Sorted (fun a b : String => a ≤ b) := by
  have h := @List.sorted_mergeSort String (fun a b : String => a ≤ b)
    (fun a b c hab hbc => by
      simp only [decide_eq_true_eq] at *
      exact le_trans hab hbc)
    (fun a b => by
      simp only [Bool.or_eq_true, decide_eq_true_eq]
      exact le_total a b) l
  exact h.imp (fun hab => by simpa using hab)

/-- Claim C8 (amended): the derived space list is the distinct TRUTHY
`adjacentSpaceId` values (null and the empty string are both excluded),
sorted lexicographically ascending, without duplicates, and identical for
any permutation of the input surfaces. -/
theorem extractUniqueSpaces_spec (surfaces : List Surface) :
    (extractUniqueSpaces surfaces).Sorted (fun a b : String => a ≤ b)
      ∧ (extractUniqueSpaces surfaces).Nodup
      ∧ (∀ x, x ∈ extractUniqueSpaces surfaces
            ↔ x ≠ "" ∧ ∃ s ∈ surfaces, s.adjacentSpaceId = some x)
      ∧ ∀ surfaces2, surfaces.Perm surfaces2 →
          extractUniqueSpaces surfaces = extractUniqueSpaces surfaces2 := by
  have hnd : ∀ l : List Surface, (extractUniqueSpaces l).Nodup := fun l =>
    ((List.mergeSort_perm (l.foldl addSpaceId []) _).nodup_iff).mpr
      (nodup_spaceFold l [] List.nodup_nil)
  have hmem : ∀ (l : List Surface) (x : String),
      x ∈ extractUniqueSpaces l
        ↔ x ≠ "" ∧ ∃ s ∈ l, s.adjacentSpaceId = some x := by
    intro l x
    rw [extractUniqueSpaces, (List.mergeSort_perm (l.foldl addSpaceId []) _).mem_iff,
      mem_spaceFold]
    simp
  refine ⟨sorted_mergeSort_le _, hnd surfaces, hmem surfaces, ?_⟩
  intro surfaces2 hp
  apply List.eq_of_perm_of_sorted ?_ (sorted_mergeSort_le _) (sorted_mergeSort_le _)
  show (extractUniqueSpaces surfaces).Perm (extractUniqueSpaces surfaces2)
  rw [List.perm_ext_iff_of_nodup (hnd surfaces) (hnd surfaces2)]
  intro a
  rw [hmem surfaces a, hmem surfaces2 a]
  constructor
  · rintro ⟨hne, s, hs, hadj⟩
    exact ⟨hne, s, hp.mem_iff.mp hs, hadj⟩
  · rintro ⟨hne, s, hs, hadj⟩
    exact ⟨hne, s, hp.mem_iff.mpr hs, hadj⟩

/-- Witness for C8: two surfaces in either order give the same sorted space
list. -/
theorem extractUniqueSpaces_spec_witness :
    [spaceSurfaceA, spaceSurfaceB].Perm [spaceSurfaceB, spaceSurfaceA]
      ∧ extractUniqueSpaces [spaceSurfaceA, spaceSurfaceB]
          = extractUniqueSpaces [spaceSurfaceB, spaceSurfaceA]
      ∧ extractUniqueSpaces [spaceSurfaceB, spaceSurfaceA] = ["space-a", "space-b"] := by
  refine ⟨List.Perm.swap spaceSurfaceB spaceSurfaceA [], ?_, ?_⟩
  · exact (extractUniqueSpaces_spec [spaceSurfaceA, spaceSurfaceB]).2.2.2
      [spaceSurfaceB, spaceSurfaceA] (List.Perm.swap spaceSurfaceB spaceSurfaceA [])
  · simp [extractUniqueSpaces, addSpaceId, spaceSurfaceA, spaceSurfaceB,
      List.mergeSort, List.merge]
    decide

/-- Claim C8 counterexample: a surface whose `adjacentSpaceId` is the empty
string — a non-null value — is dropped by the truthiness test, so the space
list is NOT the set of distinct non-null values: the code yields [] where the
claim demands [""]. -/
theorem extractUniqueSpaces_counterexample :
    emptySpaceIdSurface.adjacentSpaceId = some ""
      ∧ extractUniqueSpaces [emptySpaceIdSurface] = []
      ∧ listSpacesClaim [emptySpaceIdSurface] = [""] := by
  refine ⟨rfl, ?_, ?_⟩
  · simp [extractUniqueSpaces, addSpaceId, emptySpaceIdSurface]
  · simp [listSpacesClaim, emptySpaceIdSurface, List.filterMap, List.dedup]

theorem mem_clearSurfaces (scene : List SceneObject) (o : SceneObject) :
    o ∈ clearSurfaces scene ↔ o ∈ scene ∧ isSurfaceGroup o = false := by
  unfold clearSurfaces
  simp only [List.mem_filter, decide_eq_true_eq, not_and, Bool.not_eq_true]
  constructor
  · rintro ⟨hmem, hnot⟩
    exact ⟨hmem, hnot hmem⟩
  · rintro ⟨hmem, hfalse⟩
    exact ⟨hmem, fun _ => hfalse⟩

/-- Claim C10: `clearSurfaces` removes exactly the groups whose first child
is a mesh carrying a truthy surfaceId; lights always survive; and a rendered
surface whose parsed id is null or the empty string yields a group that is
added by `renderSurfaces` but never removed by `clearSurfaces`. -/
theorem clearSurfaces_removes_exactly (scene : List SceneObject) (surface : Surface)
    (hid : surface.id = none ∨ surface.id = some "")
    (m : SceneObject) (hm : createSurfaceMesh surface = .ok m) :
    (∀ o, o ∈ clearSurfaces scene ↔ o ∈ scene ∧ isSurfaceGroup o = false)
      ∧ (SceneObject.ambientLight ∈ scene →
            SceneObject.ambientLight ∈ clearSurfaces scene)
      ∧ (∀ x y z, SceneObject.directionalLight x y z ∈ scene →
            SceneObject.directionalLight x y z ∈ clearSurfaces scene)
      ∧ m ∈ renderSurfaces scene [surface]
      ∧ m ∈ clearSurfaces (renderSurfaces scene [surface]) := by
  have hshape : isSurfaceGroup m = false := by
    unfold createSurfaceMesh at hm
    cases hg : createGeometryFromVertices surface.vertices with
    | error e => rw [hg] at hm; simp [Except.map] at hm
    | ok g =>
        rw [hg] at hm
        simp only [Except.map, Except.ok.injEq] at hm
        subst hm
        rcases hid with h | h <;> simp [isSurfaceGroup, truthyStr, h]
  have hrender : m ∈ renderSurfaces scene [surface] := by
    simp [renderSurfaces, hm]
  refine ⟨mem_clearSurfaces scene, ?_, ?_, hrender, ?_⟩
  · intro hmem
    exact (mem_clearSurfaces scene _).mpr ⟨hmem, rfl⟩
  · intro x y z hmem
    exact (mem_clearSurfaces scene _).mpr ⟨hmem, rfl⟩
  · exact (mem_clearSurfaces _ _).mpr ⟨hrender, hshape⟩

/-- Witness for C10: a parsed surface without an id attribute renders into
the scene and survives `clearSurfaces`, as does the ambient light. -/
theorem clearSurfaces_removes_exactly_witness :
    (noIdSurface.id = none ∨ noIdSurface.id = some "")
      ∧ createSurfaceMesh noIdSurface = .ok noIdGroup
      ∧ noIdGroup ∈ renderSurfaces [SceneObject.ambientLight] [noIdSurface]
      ∧ noIdGroup ∈ clearSurfaces (renderSurfaces [SceneObject.ambientLight] [noIdSurface])
      ∧ SceneObject.ambientLight
          ∈ clearSurfaces [SceneObject.ambientLight, noIdGroup] := by
  have h := clearSurfaces_removes_exactly [SceneObject.ambientLight] noIdSurface
    (Or.inl rfl) noIdGroup (by rfl)
  have h2 := clearSurfaces_removes_exactly [SceneObject.ambientLight, noIdGroup]
    noIdSurface (Or.inl rfl) noIdGroup (by rfl)
  exact ⟨Or.inl rfl, by rfl, h.2.2.2.1, h.2.2.2.2, h2.2.1 (by simp)⟩

/-- Claim C1 (code bug): `reloadBuilding` clears the old surfaces BEFORE the
new load runs, so a failed reload leaves the scene without the old
generation: evaluated at a loaded scene and a failing fetch, the old surface
group is gone while the lights remain and the error propagates. -/
theorem reloadBuilding_failed_load_empties_scene :
    oldGeneration ∈ loadedScene
      ∧ reloadBuilding loadedScene (.error "Failed to load file: Not Found")
          = ([SceneObject.ambientLight, SceneObject.directionalLight 50 100 50,
              SceneObject.directionalLight (-50) 50 (-50)],
             .error "Failed to load file: Not Found") := by
  exact ⟨by simp [loadedScene], by rfl⟩
